import Mathlib

/-!
Verification of the PhotoGallery-Mobile authenticated API layer.

This file shallowly embeds, in Lean, the parts of the repository that the
claims concern:

* `parseLoginError` and its helpers from `src/utils/errorHandling.ts`
  (the error classifier),
* `handleApiError` from the API service layer (the richer variant that
  inspects Django REST framework error bodies),
* the `secureStorage` wrapper, the axios request interceptor and the axios
  response interceptor (token refresh) from `src/services/api.ts`.

JavaScript values that flow into the classifier are modelled by the
inductive `JsValue`; property access on `null`/`undefined` and calling
`.includes` on a non-string are modelled as thrown `TypeError`s via
`Except String`.  Asynchronous storage and network effects are modelled by
explicit state passing over a `Platform` record, with Boolean flags saying
whether the underlying platform operations reject.
-/

set_option autoImplicit false

namespace PhotoGallery

/-! ## String containment (JavaScript `String.prototype.includes`) -/

/-- Does the first list occur at the head of the second? -/
def startsWithL : List Char → List Char → Bool
  | [], _ => true
  | _ :: _, [] => false
  | a :: as, b :: bs => a == b && startsWithL as bs

/-- Does `sub` occur anywhere inside `l`? -/
def occursIn (sub : List Char) : List Char → Bool
  | [] => sub.isEmpty
  | c :: rest => startsWithL sub (c :: rest) || occursIn sub rest

/-- JavaScript `s.includes(sub)` for strings. -/
def strContains (s sub : String) : Bool :=
  occursIn sub.toList s.toList

/-! ## A small JavaScript value domain

`parseLoginError (error: any)` only ever reads `error.status` and
`error.message`, so an object is modelled by those two fields.  A status,
when present, is a number; a message may be any value (the code calls
`.includes` on it, which throws on non-strings). -/

/-- The possible states of the `message` field of an error object.  The
classifier only tests a message for truthiness and calls `.includes` on it
(which throws unless it is a string), so an object-valued message needs no
further structure. -/
inductive JsField where
  | fabsent
  | fnull
  | fundefined
  | fstr (s : String)
  | fnum (n : Int)
  | fobj
  deriving DecidableEq, Repr

/-- JavaScript values observable by the error classifier. -/
inductive JsValue where
  | vnull
  | vundefined
  | vstr (s : String)
  | vnum (n : Int)
  | vobj (status : Option Int) (message : JsField)
  deriving DecidableEq, Repr

/-- Reading `error.status`: `undefined` on primitives, the field on
objects (nullish receivers are handled before this is consulted). -/
def statusOf : JsValue → Option Int
  | .vobj st _ => st
  | _ => none

/-- Reading `error.message` (receiver already known non-nullish). -/
def messageOf : JsValue → JsField
  | .vobj _ m => m
  | _ => .fundefined

/-- JavaScript truthiness of a message field. -/
def fieldTruthy : JsField → Bool
  | .fabsent => false
  | .fnull => false
  | .fundefined => false
  | .fstr s => !(s == "")
  | .fnum n => !(n == 0)
  | .fobj => true

/-! ## The error classifier (`parseLoginError` in `errorHandling.ts`) -/

/-- The `type` field of a `LoginError`:
`'network' | 'validation' | 'authentication' | 'server' | 'unknown'`. -/
inductive ErrKind where
  | network
  | validation
  | authentication
  | server
  | unknown
  deriving DecidableEq, Repr

/-- The `LoginError` interface of `errorHandling.ts`. -/
structure LoginError where
  type : ErrKind
  message : String
  originalError : JsValue
  retryable : Bool
  deriving DecidableEq, Repr

/-- Message thrown by JavaScript when reading a property of a nullish value. -/
def nullishReadErr : String := "TypeError: cannot read properties of null or undefined"

/-- Message thrown by JavaScript when `.includes` is called on a non-string. -/
def includesCallErr : String := "TypeError: includes is not a function"

/-- Evaluation of `error.message?.includes(sub)`: `undefined`/absent and
`null` short-circuit to a falsy result, strings search, anything else
throws. -/
def optChainIncludes (m : JsField) (sub : String) : Except String Bool :=
  match m with
  | .fabsent => .ok false
  | .fnull => .ok false
  | .fundefined => .ok false
  | .fstr s => .ok (strContains s sub)
  | .fnum _ => .error includesCallErr
  | .fobj => .error includesCallErr

/-- The keyword heuristics applied to `errorMessage` in the `default:`
branch of the classifier's `switch`. -/
def keywordChecks (e : JsValue) (s : String) : Except String LoginError :=
  if strContains s "用户名" then
    .ok ⟨.validation, "用户名不存在，请检查用户名是否正确", e, false⟩
  else if strContains s "密码" then
    .ok ⟨.authentication, "密码错误，请重新输入正确的密码", e, false⟩
  else if strContains s "超时" || strContains s "timeout" then
    .ok ⟨.network, "连接超时，请检查网络后重试", e, true⟩
  else
    .ok ⟨.unknown, "登录失败，请稍后重试", e, true⟩

/-- The `default:` branch of the classifier's `switch`: builds
`errorMessage = error.message || ''` and checks keyword heuristics.
Calling `.includes` on a truthy non-string message throws. -/
def defaultBranch (e : JsValue) (m : JsField) : Except String LoginError :=
  match m with
  | .fstr s => keywordChecks e s
  | .fnum n => if n == 0 then keywordChecks e "" else .error includesCallErr
  | .fobj => .error includesCallErr
  | _ => keywordChecks e ""

/-- The `switch (error.status)` of the classifier. -/
def statusSwitch (e : JsValue) (st : Option Int) (m : JsField) :
    Except String LoginError :=
  match st with
  | some 400 => .ok ⟨.validation, "用户名或密码格式不正确，请检查输入", e, false⟩
  | some 401 => .ok ⟨.authentication, "用户名或密码错误，请重新输入", e, false⟩
  | some 403 => .ok ⟨.authentication, "账户被禁用或权限不足，请联系管理员", e, false⟩
  | some 429 => .ok ⟨.server, "登录尝试过于频繁，请稍后再试", e, true⟩
  | some 500 => .ok ⟨.server, "服务器临时不可用，请稍后重试", e, true⟩
  | some 502 => .ok ⟨.server, "服务器临时不可用，请稍后重试", e, true⟩
  | some 503 => .ok ⟨.server, "服务器临时不可用，请稍后重试", e, true⟩
  | _ => defaultBranch e m

/-- `parseLoginError` from `errorHandling.ts`.  The first branch is
`if (!error.status && error.message?.includes('网络'))`; then the status
switch.  Reading `.status` of a nullish input throws. -/
def parseLoginError (e : JsValue) : Except String LoginError :=
  match e with
  | .vnull => .error nullishReadErr
  | .vundefined => .error nullishReadErr
  | _ =>
    let st := statusOf e
    let m := messageOf e
    let statusFalsy : Bool :=
      match st with
      | none => true
      | some n => n == 0
    if statusFalsy then
      match optChainIncludes m "网络" with
      | .error ex => .error ex
      | .ok true => .ok ⟨.network, "网络连接失败，请检查网络设置后重试", e, true⟩
      | .ok false => statusSwitch e st m
    else
      statusSwitch e st m

/-! ## `handleApiError` (API service layer, improved variant)

The improved `handleApiError` inspects Django REST framework error bodies:
`detail`, `non_field_errors`, `username`, `password`, `message`, or a bare
string body, in that order, each guarded by JavaScript truthiness. -/

/-- A JSON field value that may be a string or an array of strings
(`Array.isArray` distinguishes the two in the source). -/
inductive JsonVal where
  | jstr (s : String)
  | jarr (xs : List String)
  deriving DecidableEq, Repr

/-- Truthiness of an optional string field. -/
def strFieldTruthy : Option String → Bool
  | none => false
  | some s => !(s == "")

/-- Truthiness of an optional string-or-array field (arrays are always
truthy in JavaScript, empty or not). -/
def jvalTruthy : Option JsonVal → Bool
  | none => false
  | some (.jstr s) => !(s == "")
  | some (.jarr _) => true

/-- `Array.isArray(x) ? x.join(', ') : x` as used on DRF field errors. -/
def jvalText : JsonVal → String
  | .jstr s => s
  | .jarr xs => String.intercalate ", " xs

/-- The response body (`error.response.data`) shapes inspected by
`handleApiError`: a bare string, or an object with the DRF fields. -/
inductive RespData where
  | rstr (s : String)
  | robj (detail : Option String) (nonFieldErrors : Option JsonVal)
      (username : Option JsonVal) (password : Option JsonVal)
      (message : Option String) (code : Option String)
  deriving DecidableEq, Repr

/-- `responseData?.code`. -/
def codeOf : RespData → Option String
  | .rstr _ => none
  | .robj _ _ _ _ _ c => c

/-- The `ApiError` interface: `{ message, status?, code? }`. -/
structure ApiErr where
  message : String
  status : Option Int
  code : Option String
  deriving DecidableEq, Repr

/-- An axios error as observed by `handleApiError`: an optional response
(status and body), whether a request object exists (the request was sent
but no response arrived), and the error's own message. -/
structure AxiosErr where
  response : Option (Int × RespData)
  hasRequest : Bool
  message : Option String
  deriving DecidableEq, Repr

/-- The message synthesized from a response body, starting from the
fallback `'请求失败'`. -/
def bodyMessage (data : RespData) : String :=
  match data with
  | .rstr s => s
  | .robj detail nfe username password msg _ =>
    if strFieldTruthy detail then detail.getD ""
    else if jvalTruthy nfe then jvalText ((nfe).getD (.jstr ""))
    else if jvalTruthy username then "用户名: " ++ jvalText ((username).getD (.jstr ""))
    else if jvalTruthy password then "密码: " ++ jvalText ((password).getD (.jstr ""))
    else if strFieldTruthy msg then msg.getD ""
    else "请求失败"

/-- `handleApiError` from the API service layer (improved variant). -/
def handleApiError (e : AxiosErr) : ApiErr :=
  match e.response with
  | some (st, data) => ⟨bodyMessage data, some st, codeOf data⟩
  | none =>
    if e.hasRequest then
      ⟨"网络连接失败，请检查网络设置", none, some "NETWORK_ERROR"⟩
    else
      ⟨(if strFieldTruthy e.message then e.message.getD "" else "未知错误"),
        none, some "UNKNOWN_ERROR"⟩

/-- An `ApiError` viewed as a JavaScript value fed to `parseLoginError`
(the login flow rethrows `handleApiError`'s result and the screen passes
it to the classifier). -/
def apiErrToJs (a : ApiErr) : JsValue :=
  .vobj a.status (.fstr a.message)

/-! ## Credential storage (`secureStorage` in `api.ts`)

The stored value under the single key `auth_tokens` is a string; the code
always writes `JSON.stringify` of an `AuthTokens` pair, but the request
interceptor must survive `JSON.parse` throwing on a corrupt value, so a
stored string is either a well-formed serialized pair or junk.  The
platform backend (`localStorage` / `SecureStore`) may reject each
operation; the wrapper catches every such rejection and logs it. -/

/-- The `AuthTokens` pair `{ access, refresh }`. -/
structure AuthTokens where
  access : String
  refresh : String
  deriving DecidableEq, Repr

/-- A string stored under the token key: either the serialization of a
pair (which `JSON.parse` recovers) or junk (on which `JSON.parse`
throws). -/
inductive StoredVal where
  | tok (t : AuthTokens)
  | junk (s : String)
  deriving DecidableEq, Repr

/-- The platform persistence backing `secureStorage`, with flags saying
whether each underlying operation rejects. -/
structure Platform where
  stored : Option StoredVal
  getFails : Bool
  setFails : Bool
  deleteFails : Bool
  deriving DecidableEq, Repr

/-- `secureStorage.getItem`: a rejected platform read is caught and
surfaces as `null`.  Never throws. -/
def getItem (p : Platform) : Option StoredVal :=
  if p.getFails then none else p.stored

/-- The raw platform write, which may reject. -/
def platformWrite (p : Platform) (v : StoredVal) : Except String Platform :=
  if p.setFails then .error "StorageError" else .ok { p with stored := some v }

/-- `secureStorage.setItem`: the platform write is awaited inside
`try { ... } catch (error) { console.log(...) }`, so a rejected write is
swallowed and the caller always observes normal completion. -/
def setItem (p : Platform) (v : StoredVal) : Platform × Except String Unit :=
  match platformWrite p v with
  | .ok p' => (p', .ok ())
  | .error _ => (p, .ok ())

/-- `secureStorage.deleteItem`: a rejected platform delete is caught and
logged; never throws. -/
def deleteItem (p : Platform) : Platform :=
  if p.deleteFails then p else { p with stored := none }

/-! ## The axios interceptors (`api.ts`) -/

/-- The slice of an axios request config the interceptors touch: the
hidden `_retry` marker and the `Authorization` header. -/
structure RequestConfig where
  retryMark : Bool
  authorization : Option String
  deriving DecidableEq, Repr

/-- The request interceptor: load the stored tokens, and if present parse
them and attach `Bearer <access>`; a missing value, a failed read, or a
parse exception (caught and logged) all leave the config unchanged. -/
def requestInterceptor (p : Platform) (c : RequestConfig) : RequestConfig :=
  match getItem p with
  | some (.tok t) => { c with authorization := some ("Bearer " ++ t.access) }
  | some (.junk _) => c
  | none => c

/-- An axios error as observed by the response interceptor:
`error.response?.status`, `error.config`, and an opaque tag standing for
the rest of the failure (so that distinct failures are distinct values). -/
structure HttpFailure where
  status : Option Int
  config : Option RequestConfig
  tag : String
  deriving DecidableEq, Repr

/-- A value with which a promise is rejected: an axios-style error, or a
thrown exception such as `JSON.parse` failing. -/
inductive RVal where
  | err (e : HttpFailure)
  | exc (s : String)
  deriving DecidableEq, Repr

/-- What the response interceptor resolves to: re-dispatch the original
request through `apiClient`, or reject with a value. -/
inductive Outcome where
  | retry (c : RequestConfig)
  | reject (v : RVal)
  deriving DecidableEq, Repr

/-- The environment of one interceptor run: what
`POST /token/refresh/` would return (the new access token, or its own
failure). -/
structure RefreshEnv where
  refreshResult : Except HttpFailure String
  deriving Repr

/-- The observable result of one response-interceptor run: the final
platform state, whether the refresh endpoint was called, and the
outcome. -/
structure StepOut where
  platform : Platform
  refreshCalled : Bool
  outcome : Outcome
  deriving DecidableEq, Repr

/-- The mutation `originalRequest._retry = true` seen through the error
object (whose `config` is the same object). -/
def markRetried (e : HttpFailure) : HttpFailure :=
  { e with config := e.config.map fun c => { c with retryMark := true } }

/-- The response interceptor's error handler.  On a 401 for a
not-yet-retried request it marks the request, reads the stored pair,
calls the refresh endpoint, persists `{ access: new, refresh: old }`,
stamps the new bearer header and re-dispatches; a refresh failure (or a
parse exception on the stored value) deletes the stored tokens and
rejects with that failure; every other error is rejected unchanged. -/
def responseInterceptor (env : RefreshEnv) (p : Platform) (e : HttpFailure) :
    StepOut :=
  match e.config with
  | none => ⟨p, false, .reject (.err e)⟩
  | some orig =>
    if e.status == some 401 && !orig.retryMark then
      let orig' : RequestConfig := { orig with retryMark := true }
      match getItem p with
      | none => ⟨p, false, .reject (.err (markRetried e))⟩
      | some (.junk _) =>
          ⟨deleteItem p, false, .reject (.exc "SyntaxError: JSON.parse")⟩
      | some (.tok t) =>
          match env.refreshResult with
          | .error re => ⟨deleteItem p, true, .reject (.err re)⟩
          | .ok access =>
              let p' := (setItem p (.tok ⟨access, t.refresh⟩)).1
              ⟨p', true,
                .retry { orig' with authorization := some ("Bearer " ++ access) }⟩
    else
      ⟨p, false, .reject (.err e)⟩

/-! ## Helper lemmas for classifier totality -/

/-- Message fields on which the classifier's `.includes` calls cannot
throw: absent, nullish, or a string. -/
def safeMessage : JsField → Bool
  | .fnum _ => false
  | .fobj => false
  | _ => true

/-- The keyword-heuristic branch always returns a classified error. -/
theorem keywordChecks_isOk (e : JsValue) (s : String) :
    ∃ le, keywordChecks e s = .ok le := by
  unfold keywordChecks
  split
  · exact ⟨_, rfl⟩
  · split
    · exact ⟨_, rfl⟩
    · split
      · exact ⟨_, rfl⟩
      · exact ⟨_, rfl⟩

/-- The `default:` branch returns a classified error on safe messages. -/
theorem defaultBranch_isOk (e : JsValue) (m : JsField)
    (h : safeMessage m = true) : ∃ le, defaultBranch e m = .ok le := by
  cases m with
  | fnum n => simp [safeMessage] at h
  | fobj => simp [safeMessage] at h
  | fstr s => exact keywordChecks_isOk e s
  | fabsent => exact keywordChecks_isOk e ""
  | fnull => exact keywordChecks_isOk e ""
  | fundefined => exact keywordChecks_isOk e ""

/-- The status switch returns a classified error on safe messages. -/
theorem statusSwitch_isOk (e : JsValue) (st : Option Int) (m : JsField)
    (h : safeMessage m = true) : ∃ le, statusSwitch e st m = .ok le := by
  unfold statusSwitch
  split
  · exact ⟨_, rfl⟩
  · exact ⟨_, rfl⟩
  · exact ⟨_, rfl⟩
  · exact ⟨_, rfl⟩
  · exact ⟨_, rfl⟩
  · exact ⟨_, rfl⟩
  · exact ⟨_, rfl⟩
  · exact defaultBranch_isOk e m h

/-! ## Claim theorems: the error classifier -/

/-- C5: the classifier maps HTTP 400 to validation (not retryable), 401
and 403 to authentication (not retryable, with distinct message texts),
429 to server (retryable), and 500/502/503 to server (retryable),
independently of the message field. -/
theorem parseLoginError_status_table (m : JsField) :
    parseLoginError (.vobj (some 400) m)
      = .ok ⟨.validation, "用户名或密码格式不正确，请检查输入", .vobj (some 400) m, false⟩
    ∧ parseLoginError (.vobj (some 401) m)
      = .ok ⟨.authentication, "用户名或密码错误，请重新输入", .vobj (some 401) m, false⟩
    ∧ parseLoginError (.vobj (some 403) m)
      = .ok ⟨.authentication, "账户被禁用或权限不足，请联系管理员", .vobj (some 403) m, false⟩
    ∧ parseLoginError (.vobj (some 429) m)
      = .ok ⟨.server, "登录尝试过于频繁，请稍后再试", .vobj (some 429) m, true⟩
    ∧ parseLoginError (.vobj (some 500) m)
      = .ok ⟨.server, "服务器临时不可用，请稍后重试", .vobj (some 500) m, true⟩
    ∧ parseLoginError (.vobj (some 502) m)
      = .ok ⟨.server, "服务器临时不可用，请稍后重试", .vobj (some 502) m, true⟩
    ∧ parseLoginError (.vobj (some 503) m)
      = .ok ⟨.server, "服务器临时不可用，请稍后重试", .vobj (some 503) m, true⟩
    ∧ ("用户名或密码错误，请重新输入" : String) ≠ "账户被禁用或权限不足，请联系管理员" :=
  ⟨rfl, rfl, rfl, rfl, rfl, rfl, rfl, by decide⟩

/-- C6 counterexample: a failure with no HTTP status whose message does
not contain any recognized keyword is classified `unknown`, not
`network`, refuting the claim that every no-status failure maps to
`network`. -/
theorem noStatus_without_keyword_not_network :
    parseLoginError (.vobj none (.fstr "connection refused"))
      = .ok ⟨.unknown, "登录失败，请稍后重试", .vobj none (.fstr "connection refused"), true⟩
    ∧ ErrKind.unknown ≠ ErrKind.network :=
  ⟨rfl, by decide⟩

/-- C6 amended: a failure with no HTTP status whose message contains the
network keyword `网络` (the message the API layer attaches to connection
failures) is classified `network` with `retryable = true`. -/
theorem noStatus_network_keyword_gives_network (m : String)
    (h : strContains m "网络" = true) :
    parseLoginError (.vobj none (.fstr m))
      = .ok ⟨.network, "网络连接失败，请检查网络设置后重试", .vobj none (.fstr m), true⟩ := by
  unfold parseLoginError
  simp [statusOf, messageOf, optChainIncludes, h]

/-- Witness for the amended C6 at the concrete connection-failure
message produced by `handleApiError`. -/
theorem noStatus_network_keyword_witness :
    strContains "网络连接失败，请检查网络设置" "网络" = true
    ∧ parseLoginError (.vobj none (.fstr "网络连接失败，请检查网络设置"))
      = .ok ⟨.network, "网络连接失败，请检查网络设置后重试",
          .vobj none (.fstr "网络连接失败，请检查网络设置"), true⟩ :=
  ⟨by decide, noStatus_network_keyword_gives_network _ (by decide)⟩

/-- The concrete registration failure of C7: HTTP 400 with body
`{username: ["already exists"]}`. -/
def usernameConflictErr : AxiosErr :=
  ⟨some (400, .robj none none (some (.jarr ["already exists"])) none none none),
    false, none⟩

/-- C7 counterexample: for the HTTP 400 failure with body
`{username: ["already exists"]}`, the classified error's message does not
include the username-field detail (the 400 branch replaces it with a
fixed sentence). -/
theorem username_detail_lost_in_classified_message :
    (parseLoginError (apiErrToJs (handleApiError usernameConflictErr))).map
        (fun le => strContains le.message "already exists")
      = .ok false := rfl

/-- C7 amended: `handleApiError` synthesizes the message
`用户名: already exists` (which includes the field detail) and status 400;
the classifier then yields kind `validation` with the fixed validation
message, so the detail does not survive into the classified message. -/
theorem username_detail_in_apiError_but_fixed_classified_message :
    handleApiError usernameConflictErr = ⟨"用户名: already exists", some 400, none⟩
    ∧ strContains "用户名: already exists" "already exists" = true
    ∧ parseLoginError (apiErrToJs (handleApiError usernameConflictErr))
      = .ok ⟨.validation, "用户名或密码格式不正确，请检查输入",
          .vobj (some 400) (.fstr "用户名: already exists"), false⟩ :=
  ⟨rfl, by decide, rfl⟩

/-- C8 counterexample: the classifier throws a `TypeError` on `null` and
on `undefined` input (reading `error.status`), refuting totality over all
inputs. -/
theorem parseLoginError_throws_on_null :
    parseLoginError .vnull = .error nullishReadErr
    ∧ parseLoginError .vundefined = .error nullishReadErr :=
  ⟨rfl, rfl⟩

/-- C8 amended: the classifier returns a classified error and does not
throw on every non-null, non-undefined input whose message field is
absent, nullish, or a string; there is no wrapper converting the nullish
throw into an `unknown`-kind error. -/
theorem parseLoginError_total_on_safe_inputs (v : JsValue)
    (h1 : v ≠ .vnull) (h2 : v ≠ .vundefined)
    (h3 : safeMessage (messageOf v) = true) :
    ∃ le, parseLoginError v = .ok le := by
  cases v with
  | vnull => exact absurd rfl h1
  | vundefined => exact absurd rfl h2
  | vstr s => exact ⟨_, rfl⟩
  | vnum n => exact ⟨_, rfl⟩
  | vobj st m =>
    simp only [messageOf] at h3
    unfold parseLoginError
    simp only [statusOf, messageOf]
    split
    · split
      · next ex heq =>
          cases m <;> simp [optChainIncludes, safeMessage] at heq h3
      · exact ⟨_, rfl⟩
      · next heq => exact statusSwitch_isOk _ _ _ h3
    · exact statusSwitch_isOk _ _ _ h3

/-- Witness for the amended C8 at a shapeless object input. -/
theorem parseLoginError_total_witness :
    (JsValue.vobj none .fabsent ≠ .vnull)
    ∧ (JsValue.vobj none .fabsent ≠ .vundefined)
    ∧ safeMessage (messageOf (.vobj none .fabsent)) = true
    ∧ ∃ le, parseLoginError (.vobj none .fabsent) = .ok le :=
  ⟨by decide, by decide, by decide,
    parseLoginError_total_on_safe_inputs _ (by decide) (by decide) (by decide)⟩

/-! ## Claim theorems: storage and the interceptors -/

/-- C4: before dispatch the pipeline loads the stored pair; when a pair
is present the request carries `Authorization: Bearer <access>` with
exactly the stored access token, and when none is present the config is
returned unchanged (no header, no error). -/
theorem requestInterceptor_attaches_bearer_or_leaves_config
    (p : Platform) (c : RequestConfig) :
    (∀ t, getItem p = some (.tok t) →
      requestInterceptor p c = { c with authorization := some ("Bearer " ++ t.access) })
    ∧ (getItem p = none → requestInterceptor p c = c) := by
  constructor
  · intro t h
    simp [requestInterceptor, h]
  · intro h
    simp [requestInterceptor, h]

/-- Witness for C4 at a populated store and at an empty store. -/
theorem requestInterceptor_witness :
    getItem ⟨some (.tok ⟨"acc", "ref"⟩), false, false, false⟩ = some (.tok ⟨"acc", "ref"⟩)
    ∧ requestInterceptor ⟨some (.tok ⟨"acc", "ref"⟩), false, false, false⟩ ⟨false, none⟩
      = { retryMark := false, authorization := some ("Bearer " ++ "acc") }
    ∧ getItem ⟨none, false, false, false⟩ = none
    ∧ requestInterceptor ⟨none, false, false, false⟩ ⟨false, none⟩ = ⟨false, none⟩ :=
  ⟨rfl,
    (requestInterceptor_attaches_bearer_or_leaves_config _ _).1 ⟨"acc", "ref"⟩ rfl,
    rfl,
    (requestInterceptor_attaches_bearer_or_leaves_config _ _).2 rfl⟩

/-- C2: a 401 for a request already carrying the `_retry` marker is
rejected unchanged — no refresh dispatch, no state change, no retry. -/
theorem alreadyRetried_401_propagates_unchanged (env : RefreshEnv)
    (p : Platform) (e : HttpFailure) (orig : RequestConfig)
    (h1 : e.config = some orig) (h2 : orig.retryMark = true) :
    responseInterceptor env p e = ⟨p, false, .reject (.err e)⟩ := by
  simp [responseInterceptor, h1, h2]

/-- Witness for C2 at a concrete already-retried 401 failure. -/
theorem alreadyRetried_401_witness :
    (⟨some 401, some ⟨true, none⟩, "orig-401"⟩ : HttpFailure).config = some ⟨true, none⟩
    ∧ (⟨true, none⟩ : RequestConfig).retryMark = true
    ∧ responseInterceptor ⟨.ok "newacc"⟩ ⟨some (.tok ⟨"acc", "ref"⟩), false, false, false⟩
        ⟨some 401, some ⟨true, none⟩, "orig-401"⟩
      = ⟨⟨some (.tok ⟨"acc", "ref"⟩), false, false, false⟩, false,
          .reject (.err ⟨some 401, some ⟨true, none⟩, "orig-401"⟩)⟩ :=
  ⟨rfl, rfl, alreadyRetried_401_propagates_unchanged _ _ _ _ rfl rfl⟩

/-- C10: a not-yet-retried 401 while the store yields no pair makes no
refresh call, leaves the platform untouched, and rejects with the
original error (only its hidden `_retry` marker having been set by the
mutation preceding the store read); status and identity tag are
unchanged. -/
theorem missing_tokens_401_no_refresh (env : RefreshEnv) (p : Platform)
    (e : HttpFailure) (orig : RequestConfig)
    (h1 : e.status = some 401) (h2 : e.config = some orig)
    (h3 : orig.retryMark = false) (h4 : getItem p = none) :
    responseInterceptor env p e = ⟨p, false, .reject (.err (markRetried e))⟩
    ∧ (markRetried e).status = e.status ∧ (markRetried e).tag = e.tag := by
  refine ⟨?_, rfl, rfl⟩
  simp [responseInterceptor, h1, h2, h3, h4]

/-- Witness for C10 at a concrete 401 with an empty store. -/
theorem missing_tokens_401_witness :
    (⟨some 401, some ⟨false, none⟩, "orig-401"⟩ : HttpFailure).status = some 401
    ∧ (⟨some 401, some ⟨false, none⟩, "orig-401"⟩ : HttpFailure).config = some ⟨false, none⟩
    ∧ (⟨false, none⟩ : RequestConfig).retryMark = false
    ∧ getItem ⟨none, false, false, false⟩ = none
    ∧ (responseInterceptor ⟨.ok "newacc"⟩ ⟨none, false, false, false⟩
          ⟨some 401, some ⟨false, none⟩, "orig-401"⟩
        = ⟨⟨none, false, false, false⟩, false,
            .reject (.err (markRetried ⟨some 401, some ⟨false, none⟩, "orig-401"⟩))⟩
      ∧ (markRetried (⟨some 401, some ⟨false, none⟩, "orig-401"⟩ : HttpFailure)).status
        = some 401
      ∧ (markRetried (⟨some 401, some ⟨false, none⟩, "orig-401"⟩ : HttpFailure)).tag
        = "orig-401") :=
  ⟨rfl, rfl, rfl, rfl, missing_tokens_401_no_refresh _ _ _ _ rfl rfl rfl rfl⟩

/-- C1 counterexample: for a not-yet-retried 401 whose refresh call
fails, the store does end empty, but the rejected value is the refresh
call's own failure — a distinct value from the original 401 failure (here
a status-less network failure, which would not classify as
authentication). -/
theorem refreshFailure_rejects_refresh_error_not_original :
    responseInterceptor ⟨.error ⟨none, none, "refresh-network-failure"⟩⟩
        ⟨some (.tok ⟨"acc", "ref"⟩), false, false, false⟩
        ⟨some 401, some ⟨false, some "Bearer acc"⟩, "original-401"⟩
      = ⟨⟨none, false, false, false⟩, true,
          .reject (.err ⟨none, none, "refresh-network-failure"⟩)⟩
    ∧ RVal.err ⟨none, none, "refresh-network-failure"⟩
      ≠ .err ⟨some 401, some ⟨false, some "Bearer acc"⟩, "original-401"⟩
    ∧ RVal.err ⟨none, none, "refresh-network-failure"⟩
      ≠ .err (markRetried ⟨some 401, some ⟨false, some "Bearer acc"⟩, "original-401"⟩) :=
  ⟨rfl, by decide, by decide⟩

/-- C1 amended: on a not-yet-retried 401 with a stored pair whose refresh
call fails, the pipeline deletes the stored pair and rejects with the
refresh call's own failure (not the original 401). -/
theorem refreshFailure_clears_store_and_propagates_refresh_error
    (env : RefreshEnv) (p : Platform) (e : HttpFailure) (orig : RequestConfig)
    (t : AuthTokens) (re : HttpFailure)
    (h1 : e.status = some 401) (h2 : e.config = some orig)
    (h3 : orig.retryMark = false) (h4 : p.getFails = false)
    (h5 : p.stored = some (.tok t)) (h6 : p.deleteFails = false)
    (h7 : env.refreshResult = .error re) :
    responseInterceptor env p e
      = ⟨{ p with stored := none }, true, .reject (.err re)⟩ := by
  simp [responseInterceptor, getItem, deleteItem, h1, h2, h3, h4, h5, h6, h7]

/-- Witness for the amended C1 at a concrete refresh failure. -/
theorem refreshFailure_clears_store_witness :
    (⟨some 401, some ⟨false, none⟩, "orig-401"⟩ : HttpFailure).status = some 401
    ∧ (⟨some 401, some ⟨false, none⟩, "orig-401"⟩ : HttpFailure).config = some ⟨false, none⟩
    ∧ (⟨false, none⟩ : RequestConfig).retryMark = false
    ∧ (⟨some (.tok ⟨"acc", "ref"⟩), false, false, false⟩ : Platform).getFails = false
    ∧ (⟨some (.tok ⟨"acc", "ref"⟩), false, false, false⟩ : Platform).stored
      = some (.tok ⟨"acc", "ref"⟩)
    ∧ (⟨some (.tok ⟨"acc", "ref"⟩), false, false, false⟩ : Platform).deleteFails = false
    ∧ (⟨.error ⟨none, none, "refresh-fail"⟩⟩ : RefreshEnv).refreshResult
      = .error ⟨none, none, "refresh-fail"⟩
    ∧ responseInterceptor ⟨.error ⟨none, none, "refresh-fail"⟩⟩
        ⟨some (.tok ⟨"acc", "ref"⟩), false, false, false⟩
        ⟨some 401, some ⟨false, none⟩, "orig-401"⟩
      = ⟨{ (⟨some (.tok ⟨"acc", "ref"⟩), false, false, false⟩ : Platform) with stored := none },
          true, .reject (.err ⟨none, none, "refresh-fail"⟩)⟩ :=
  ⟨rfl, rfl, rfl, rfl, rfl, rfl, rfl,
    refreshFailure_clears_store_and_propagates_refresh_error _ _ _ _ ⟨"acc", "ref"⟩ _
      rfl rfl rfl rfl rfl rfl rfl⟩

/-- C3: on a not-yet-retried 401 with a stored pair, a successful refresh
persists `{ access: returned, refresh: previously stored }` (no rotation)
before the single retry is dispatched, the retried request carries
`Bearer <new access>`, and re-running the request interceptor against the
freshly persisted store attaches that same token. -/
theorem refreshSuccess_persists_and_retries_with_new_token
    (env : RefreshEnv) (p : Platform) (e : HttpFailure) (orig : RequestConfig)
    (t : AuthTokens) (access : String)
    (h1 : e.status = some 401) (h2 : e.config = some orig)
    (h3 : orig.retryMark = false) (h4 : p.getFails = false)
    (h5 : p.stored = some (.tok t)) (h6 : p.setFails = false)
    (h7 : env.refreshResult = .ok access) :
    responseInterceptor env p e
      = ⟨{ p with stored := some (.tok ⟨access, t.refresh⟩) }, true,
          .retry ⟨true, some ("Bearer " ++ access)⟩⟩
    ∧ requestInterceptor { p with stored := some (.tok ⟨access, t.refresh⟩) }
        ⟨true, some ("Bearer " ++ access)⟩
      = ⟨true, some ("Bearer " ++ access)⟩ := by
  constructor
  · simp [responseInterceptor, getItem, setItem, platformWrite,
      h1, h2, h3, h4, h5, h6, h7]
  · simp [requestInterceptor, getItem, h4]

/-- Witness for C3 at a concrete successful refresh. -/
theorem refreshSuccess_witness :
    (⟨some 401, some ⟨false, none⟩, "orig-401"⟩ : HttpFailure).status = some 401
    ∧ (⟨some 401, some ⟨false, none⟩, "orig-401"⟩ : HttpFailure).config = some ⟨false, none⟩
    ∧ (⟨false, none⟩ : RequestConfig).retryMark = false
    ∧ (⟨some (.tok ⟨"acc", "ref"⟩), false, false, false⟩ : Platform).getFails = false
    ∧ (⟨some (.tok ⟨"acc", "ref"⟩), false, false, false⟩ : Platform).stored
      = some (.tok ⟨"acc", "ref"⟩)
    ∧ (⟨some (.tok ⟨"acc", "ref"⟩), false, false, false⟩ : Platform).setFails = false
    ∧ (⟨.ok "newacc"⟩ : RefreshEnv).refreshResult = .ok "newacc"
    ∧ (responseInterceptor ⟨.ok "newacc"⟩
          ⟨some (.tok ⟨"acc", "ref"⟩), false, false, false⟩
          ⟨some 401, some ⟨false, none⟩, "orig-401"⟩
        = ⟨{ (⟨some (.tok ⟨"acc", "ref"⟩), false, false, false⟩ : Platform) with
              stored := some (.tok ⟨"newacc", "ref"⟩) }, true,
            .retry ⟨true, some ("Bearer " ++ "newacc")⟩⟩
      ∧ requestInterceptor
          { (⟨some (.tok ⟨"acc", "ref"⟩), false, false, false⟩ : Platform) with
              stored := some (.tok ⟨"newacc", "ref"⟩) }
          ⟨true, some ("Bearer " ++ "newacc")⟩
        = ⟨true, some ("Bearer " ++ "newacc")⟩) :=
  ⟨rfl, rfl, rfl, rfl, rfl, rfl, rfl,
    refreshSuccess_persists_and_retries_with_new_token _ _ _ _ ⟨"acc", "ref"⟩ "newacc"
      rfl rfl rfl rfl rfl rfl rfl⟩

/-- C9 counterexample: when the platform rejects the write, the raw write
does fail, but `secureStorage.setItem` completes normally (`.ok ()`) and
leaves the store unchanged — no `StorageError` reaches the caller. -/
theorem setItem_swallows_platform_rejection :
    platformWrite ⟨some (.tok ⟨"acc", "ref"⟩), false, true, false⟩ (.tok ⟨"new", "ref"⟩)
      = .error "StorageError"
    ∧ setItem ⟨some (.tok ⟨"acc", "ref"⟩), false, true, false⟩ (.tok ⟨"new", "ref"⟩)
      = (⟨some (.tok ⟨"acc", "ref"⟩), false, true, false⟩, .ok ()) :=
  ⟨rfl, rfl⟩

/-- C9 amended: `setItem` always completes normally toward its caller; it
overwrites the stored value exactly when the platform accepts the write
(and is a no-op otherwise), and overwriting is idempotent. -/
theorem setItem_silent_and_idempotent (p : Platform) (v : StoredVal) :
    (setItem p v).2 = .ok ()
    ∧ (setItem p v).1 = (if p.setFails then p else { p with stored := some v })
    ∧ (setItem (setItem p v).1 v).1 = (setItem p v).1 := by
  rcases p with ⟨st, gf, sf, df⟩
  cases sf <;> simp [setItem, platformWrite]

end PhotoGallery
